import Mathlib

/-!
Shallow embedding of the unified MCAP telemetry writer of
`github.com/machanirobotics/pulse` (Go), covering:

* `SchemaRegistry` (go/internal/foxglove/schemas.go),
* `UnifiedMcapWriter` with `NewUnifiedMcapWriter`, `registerBuiltInSchemas`,
  `RegisterSchema`, `AddCustomSchema`, `CreateChannel`, `CreateLogChannel`,
  `CreateMetricChannel`, `WriteMessage`, `Close`, `IsClosed`, `GetFilePath`,
* `MetricMcapWriter.getOrCreateChannel` (the metric adapter).

Go maps are embedded as association lists (`List (String × α)`); the writer's
coarse mutex makes every public operation atomic, so operations are pure state
transformers.  The underlying MCAP codec (an external library) is abstracted
as an append-only list of `Record`s, and each call that performs a physical
codec write takes an explicit `writeOk : Bool` fault flag standing for whether
that I/O write succeeds.  `uint16` counters are embedded as `Nat` with an
explicit `% 2 ^ 16` at each increment.  Error returns (`error` in Go) are
embedded as `Option String` (`none` = nil error), and the (possibly mutated)
receiver is returned explicitly.
-/

/-- A logical record appended to the MCAP container stream, in write order.
Chunking/compression/framing belong to the external codec and are out of
scope; this is the sequence of records handed to the codec writer. -/
inductive Record where
  | header (profile library : String)
  | schema (id : Nat) (name encoding : String) (data : String)
  | channel (id schemaId : Nat) (topic messageEncoding : String)
      (metadata : List (String × String))
  | message (channelId sequence logTime publishTime : Nat) (data : List Nat)
  deriving DecidableEq, Repr

/-- Association-list lookup, embedding a Go map read `m[k]`. -/
def assocLookup {α : Type} : List (String × α) → String → Option α
  | [], _ => none
  | (k, v) :: rest, key => if k = key then some v else assocLookup rest key

/-- Association-list upsert, embedding a Go map write `m[k] = v`
(last write wins). -/
def assocUpsert {α : Type} : List (String × α) → String → α → List (String × α)
  | [], key, v => [(key, v)]
  | (k, w) :: rest, key, v =>
      if k = key then (key, v) :: rest else (k, w) :: assocUpsert rest key v

/-- Go `SchemaRegistry` manages MCAP schemas for different data types
(go/internal/foxglove/schemas.go). -/
structure SchemaRegistry where
  schemas : List (String × String)
  deriving DecidableEq, Repr

/-- The built-in `foxglove.Log` jsonschema text.  No claim depends on the
content of the schema body, so the long JSON literal of the source is
abbreviated to a distinct marker string. -/
def foxgloveLogSchema : String := "jsonschema:foxglove.Log"

/-- The built-in `mahcanirobotics.metric` jsonschema text (body abbreviated,
see `foxgloveLogSchema`). -/
def shokkiMetricSchema : String := "jsonschema:mahcanirobotics.metric"

/-- The built-in `foxglove.Plot` jsonschema text (body abbreviated,
see `foxgloveLogSchema`). -/
def foxglovePlotSchema : String := "jsonschema:foxglove.Plot"

/-- Go `NewSchemaRegistry` creates a new schema registry seeded with the three
built-in schemas. -/
def NewSchemaRegistry : SchemaRegistry :=
  { schemas :=
      [ ("foxglove.Log", foxgloveLogSchema)
      , ("mahcanirobotics.metric", shokkiMetricSchema)
      , ("foxglove.Plot", foxglovePlotSchema) ] }

/-- Go `SchemaRegistry.Register` adds a new schema to the registry
(map assignment: last write wins). -/
def SchemaRegistry.Register (r : SchemaRegistry) (name schema : String) :
    SchemaRegistry :=
  { schemas := assocUpsert r.schemas name schema }

/-- Go `SchemaRegistry.Get` retrieves a schema by name. -/
def SchemaRegistry.Get (r : SchemaRegistry) (name : String) : Option String :=
  assocLookup r.schemas name

/-- Go `UnifiedMcapWriter` manages a single MCAP file with multiple schemas and
channels for both logging and metrics.  `stream` is the list of records
successfully written to the codec, `fileOpen` tracks the OS file handle, and
`codecCloseCalls` / `fileCloseCalls` count how many times `writer.Close()`
and `file.Close()` have been invoked (instrumentation for the close claims;
the Go struct's mutex is dropped since every operation is atomic under it). -/
structure UnifiedMcapWriter where
  filePath : String
  closed : Bool
  registry : SchemaRegistry
  schemaIDs : List (String × Nat)
  nextSchemaID : Nat
  channels : List (String × Nat)
  nextChannel : Nat
  stream : List Record
  fileOpen : Bool
  codecCloseCalls : Nat
  fileCloseCalls : Nat
  deriving DecidableEq, Repr

/-- Increment of a Go `uint16` counter (`u.nextSchemaID++`). -/
def incUint16 (n : Nat) : Nat := (n + 1) % 2 ^ 16

/-- Go `RegisterSchema` registers a schema from the registry to the MCAP file.
`writeOk` is the fault flag of the codec write `u.writer.WriteSchema`;
the Go method returns only `error`, so the result is the mutated receiver
paired with the returned error. -/
def UnifiedMcapWriter.RegisterSchema (u : UnifiedMcapWriter)
    (schemaName : String) (writeOk : Bool) :
    UnifiedMcapWriter × Option String :=
  match assocLookup u.schemaIDs schemaName with
  | some _ => (u, none)
  | none =>
    match u.registry.Get schemaName with
    | none => (u, some ("schema " ++ schemaName ++ " not found in registry"))
    | some schemaData =>
      let schemaID := u.nextSchemaID
      if writeOk then
        ({ u with
            stream := u.stream ++
              [Record.schema schemaID schemaName "jsonschema" schemaData]
            schemaIDs := assocUpsert u.schemaIDs schemaName schemaID
            nextSchemaID := incUint16 u.nextSchemaID }, none)
      else
        (u, some ("failed to write schema " ++ schemaName))

/-- Go `registerBuiltInSchemas` registers the built-in schemas
(`foxglove.Log` and `mahcanirobotics.metric`). -/
def UnifiedMcapWriter.registerBuiltInSchemas (u : UnifiedMcapWriter)
    (writeOk : Bool) : UnifiedMcapWriter × Option String :=
  match u.RegisterSchema "foxglove.Log" writeOk with
  | (u1, none) => u1.RegisterSchema "mahcanirobotics.metric" writeOk
  | (u1, some e) => (u1, some e)

/-- Go `NewUnifiedMcapWriter` creates a unified MCAP writer for logs and
metrics.  Directory creation, file creation and codec construction are I/O
collapsed into the single fault flag `writeOk` (false stands for the first
failing write, surfaced here as the header write failing); on success the
header record is written and the built-in schemas are registered. -/
def NewUnifiedMcapWriter (serviceName mcapPath : String) (writeOk : Bool) :
    Except String UnifiedMcapWriter :=
  if mcapPath = "" then .error "MCAP file path not specified"
  else if !writeOk then .error "failed to write header"
  else
    let u0 : UnifiedMcapWriter :=
      { filePath := mcapPath
        closed := false
        registry := NewSchemaRegistry
        schemaIDs := []
        nextSchemaID := 1
        channels := []
        nextChannel := 1
        stream := [Record.header serviceName "github.com/machanirobotics/pulse/go/"]
        fileOpen := true
        codecCloseCalls := 0
        fileCloseCalls := 0 }
    match u0.registerBuiltInSchemas true with
    | (u1, none) => .ok u1
    | (_, some e) => .error e

/-- Go `AddCustomSchema` adds a custom schema to the registry and registers it
to the MCAP file. -/
def UnifiedMcapWriter.AddCustomSchema (u : UnifiedMcapWriter)
    (name schema : String) (writeOk : Bool) :
    UnifiedMcapWriter × Option String :=
  let u1 := { u with registry := u.registry.Register name schema }
  u1.RegisterSchema name writeOk

/-- Go `CreateChannel` creates a channel with a specific schema.  Returns the
mutated receiver, the channel id (`0` on error, as in Go) and the error. -/
def UnifiedMcapWriter.CreateChannel (u : UnifiedMcapWriter)
    (topic schemaName : String) (metadata : List (String × String))
    (writeOk : Bool) : UnifiedMcapWriter × Nat × Option String :=
  match assocLookup u.channels topic with
  | some channelID => (u, channelID, none)
  | none =>
    match assocLookup u.schemaIDs schemaName with
    | none => (u, 0, some ("schema " ++ schemaName ++ " not registered"))
    | some schemaID =>
      let channelID := u.nextChannel
      if writeOk then
        ({ u with
            stream := u.stream ++
              [Record.channel channelID schemaID topic "json" metadata]
            channels := assocUpsert u.channels topic channelID
            nextChannel := incUint16 u.nextChannel }, channelID, none)
      else
        (u, 0, some "failed to create channel")

/-- Go `CreateLogChannel` creates a channel for logs using the `foxglove.Log`
schema. -/
def UnifiedMcapWriter.CreateLogChannel (u : UnifiedMcapWriter)
    (topic : String) (metadata : List (String × String)) (writeOk : Bool) :
    UnifiedMcapWriter × Nat × Option String :=
  u.CreateChannel topic "foxglove.Log" metadata writeOk

/-- Go `CreateMetricChannel` creates a channel for a specific metric using the
`mahcanirobotics.metric` schema. -/
def UnifiedMcapWriter.CreateMetricChannel (u : UnifiedMcapWriter)
    (topic : String) (metadata : List (String × String)) (writeOk : Bool) :
    UnifiedMcapWriter × Nat × Option String :=
  u.CreateChannel topic "mahcanirobotics.metric" metadata writeOk

/-- Go `WriteMessage` writes a message to a specific channel (sequence is the
constant 0).  Note: the body consults no field of `u` other than the codec
stream — in particular not `u.closed`. -/
def UnifiedMcapWriter.WriteMessage (u : UnifiedMcapWriter) (channelID : Nat)
    (data : List Nat) (logTime publishTime : Nat) (writeOk : Bool) :
    UnifiedMcapWriter × Option String :=
  if writeOk then
    ({ u with
        stream := u.stream ++
          [Record.message channelID 0 logTime publishTime data] }, none)
  else
    (u, some "failed to write message")

/-- Go `Close` closes the MCAP writer.  `codecOk` / `fileOk` are the fault
flags of `u.writer.Close()` and `u.file.Close()`. -/
def UnifiedMcapWriter.Close (u : UnifiedMcapWriter) (codecOk fileOk : Bool) :
    UnifiedMcapWriter × Option String :=
  if u.closed then (u, none)
  else if !codecOk then
    ({ u with
        codecCloseCalls := u.codecCloseCalls + 1
        fileCloseCalls := u.fileCloseCalls + 1
        fileOpen := false }, some "failed to close MCAP writer")
  else if !fileOk then
    ({ u with
        codecCloseCalls := u.codecCloseCalls + 1
        fileCloseCalls := u.fileCloseCalls + 1
        fileOpen := false }, some "failed to close file")
  else
    ({ u with
        codecCloseCalls := u.codecCloseCalls + 1
        fileCloseCalls := u.fileCloseCalls + 1
        fileOpen := false
        closed := true }, none)

/-- Go `IsClosed` returns whether the writer is closed. -/
def UnifiedMcapWriter.IsClosed (u : UnifiedMcapWriter) : Bool := u.closed

/-- Go `GetFilePath` returns the path to the MCAP file. -/
def UnifiedMcapWriter.GetFilePath (u : UnifiedMcapWriter) : String :=
  u.filePath

/-- Go `MetricMcapWriter` writes metrics to MCAP for Foxglove visualization
with dynamic channel creation per metric name
(go/internal/metrics/metrics.go).  The unified writer is a shared pointer in
Go; its state after a call is returned alongside the adapter state. -/
structure MetricMcapWriter where
  unifiedWriter : UnifiedMcapWriter
  channels : List (String × Nat)
  serviceName : String
  metadata : List (String × String)
  deriving DecidableEq, Repr

/-- Embeds `strings.ReplaceAll(metricName, ".", "/")`: the pattern and the
replacement are the single characters `.` and `/`, so the call is the
character-wise substitution of `/` for `.`. -/
def replaceDotsWithSlashes (s : String) : String :=
  String.mk (s.data.map fun c => if c = '.' then '/' else c)

/-- Go `getOrCreateChannel` gets the existing channel ID or creates a new
channel for the metric: topic `/metrics/{service}/{name with . -> /}`,
channel metadata = the adapter's metadata plus a `metric_name` key. -/
def MetricMcapWriter.getOrCreateChannel (m : MetricMcapWriter)
    (metricName : String) (writeOk : Bool) :
    MetricMcapWriter × Nat × Option String :=
  match assocLookup m.channels metricName with
  | some channelID => (m, channelID, none)
  | none =>
    let topic := "/metrics/" ++ m.serviceName ++ "/" ++
      replaceDotsWithSlashes metricName
    let channelMetadata := assocUpsert m.metadata "metric_name" metricName
    match m.unifiedWriter.CreateMetricChannel topic channelMetadata writeOk with
    | (u1, channelID, none) =>
        ({ m with
            unifiedWriter := u1
            channels := assocUpsert m.channels metricName channelID },
         channelID, none)
    | (u1, _, some e) =>
        ({ m with unifiedWriter := u1 }, 0,
         some ("failed to create channel for " ++ metricName ++ ": " ++ e))

/-- The number of channel records in a stream carrying a given topic. -/
def channelRecordCount (topic : String) (s : List Record) : Nat :=
  (s.filter fun r =>
    match r with
    | .channel _ _ t _ _ => t = topic
    | _ => false).length

/-- The number of schema records in a stream carrying a given schema name. -/
def schemaRecordCount (name : String) (s : List Record) : Nat :=
  (s.filter fun r =>
    match r with
    | .schema _ n _ _ => n = name
    | _ => false).length

/-- The writer state produced by a successful
`NewUnifiedMcapWriter "svc" "out.mcap"`, written out explicitly. -/
def openedWriterSvc : UnifiedMcapWriter :=
  { filePath := "out.mcap"
    closed := false
    registry := NewSchemaRegistry
    schemaIDs := [("foxglove.Log", 1), ("mahcanirobotics.metric", 2)]
    nextSchemaID := 3
    channels := []
    nextChannel := 1
    stream :=
      [ Record.header "svc" "github.com/machanirobotics/pulse/go/"
      , Record.schema 1 "foxglove.Log" "jsonschema" foxgloveLogSchema
      , Record.schema 2 "mahcanirobotics.metric" "jsonschema" shokkiMetricSchema ]
    fileOpen := true
    codecCloseCalls := 0
    fileCloseCalls := 0 }

theorem newUnifiedMcapWriter_svc_eq :
    NewUnifiedMcapWriter "svc" "out.mcap" true = .ok openedWriterSvc := by rfl

theorem assocLookup_upsert_self {α : Type} (l : List (String × α))
    (k : String) (v : α) : assocLookup (assocUpsert l k v) k = some v := by
  induction l with
  | nil => simp [assocUpsert, assocLookup]
  | cons hd tl ih =>
    obtain ⟨k', v'⟩ := hd
    by_cases h : k' = k
    · simp [assocUpsert, assocLookup, h]
    · simp [assocUpsert, assocLookup, h, ih]

theorem assocUpsert_map_snd_of_absent {α : Type} (l : List (String × α))
    (k : String) (v : α) (h : assocLookup l k = none) :
    (assocUpsert l k v).map Prod.snd = l.map Prod.snd ++ [v] := by
  induction l with
  | nil => simp [assocUpsert]
  | cons hd tl ih =>
    obtain ⟨k', v'⟩ := hd
    by_cases hk : k' = k
    · simp [assocLookup, hk] at h
    · simp only [assocLookup, if_neg hk] at h
      simp [assocUpsert, if_neg hk, ih h]

theorem incUint16_eq_succ {n : Nat} (h : n + 1 < 2 ^ 16) :
    incUint16 n = n + 1 := by
  simpa [incUint16] using Nat.mod_eq_of_lt h

/-- Within one writer, the schema-id and the channel-id space are each
gap-free: the bound ids, in binding order, are exactly `1, 2, …, next - 1`
for the corresponding counter. -/
def idsGapFree (u : UnifiedMcapWriter) : Prop :=
  1 ≤ u.nextSchemaID ∧ 1 ≤ u.nextChannel ∧
  u.schemaIDs.map Prod.snd = List.range' 1 (u.nextSchemaID - 1) ∧
  u.channels.map Prod.snd = List.range' 1 (u.nextChannel - 1)

theorem range'_one_concat {n : Nat} (h : 1 ≤ n) :
    List.range' 1 (n - 1) ++ [n] = List.range' 1 n := by
  obtain ⟨m, rfl⟩ := Nat.exists_eq_add_of_le h
  have h1 : 1 + m - 1 = m := by omega
  have h2 : List.range' 1 (m + 1) = List.range' 1 m ++ [1 + m] := by
    rw [List.range'_concat]
    simp
  rw [h1, Nat.add_comm 1 m, h2]
  simp [Nat.add_comm]

/-- C5: for every schema name present in the registry and not yet bound,
registering it twice yields the same binding both times — the first call
binds the name to the next schema id and writes exactly one schema record,
and the second call returns success leaving the writer (binding, counter,
stream) completely unchanged. -/
theorem C5_register_schema_idempotent (u : UnifiedMcapWriter) (name : String)
    (w : Bool)
    (hfresh : assocLookup u.schemaIDs name = none)
    (hreg : (u.registry.Get name).isSome) :
    ∃ u1, u.RegisterSchema name true = (u1, none) ∧
      assocLookup u1.schemaIDs name = some u.nextSchemaID ∧
      schemaRecordCount name u1.stream = schemaRecordCount name u.stream + 1 ∧
      u1.RegisterSchema name w = (u1, none) := by
  obtain ⟨d, hd⟩ := Option.isSome_iff_exists.mp hreg
  have hrun : u.RegisterSchema name true =
      ({ u with
          stream := u.stream ++ [Record.schema u.nextSchemaID name "jsonschema" d]
          schemaIDs := assocUpsert u.schemaIDs name u.nextSchemaID
          nextSchemaID := incUint16 u.nextSchemaID }, none) := by
    simp [UnifiedMcapWriter.RegisterSchema, hfresh, hd]
  refine ⟨_, hrun, ?_, ?_, ?_⟩
  · exact assocLookup_upsert_self u.schemaIDs name u.nextSchemaID
  · simp [schemaRecordCount, List.filter_append]
  · simp [UnifiedMcapWriter.RegisterSchema,
      assocLookup_upsert_self u.schemaIDs name u.nextSchemaID]

/-- C4: for every topic with no existing binding and a bound schema name,
the first CreateChannel call returns a fresh id and writes exactly one
channel record for that topic; a second CreateChannel call for the same
topic — with any schema name, metadata and fault flag — returns the very
same id and leaves the writer (bindings, counters, stream) completely
unchanged. -/
theorem C4_create_channel_idempotent (u : UnifiedMcapWriter)
    (topic schemaName schemaName2 : String)
    (md md2 : List (String × String)) (w : Bool)
    (hfresh : assocLookup u.channels topic = none)
    (hschema : (assocLookup u.schemaIDs schemaName).isSome) :
    ∃ u1 id, u.CreateChannel topic schemaName md true = (u1, id, none) ∧
      channelRecordCount topic u1.stream = channelRecordCount topic u.stream + 1 ∧
      u1.CreateChannel topic schemaName2 md2 w = (u1, id, none) := by
  obtain ⟨sid, hsid⟩ := Option.isSome_iff_exists.mp hschema
  have hrun : u.CreateChannel topic schemaName md true =
      ({ u with
          stream := u.stream ++ [Record.channel u.nextChannel sid topic "json" md]
          channels := assocUpsert u.channels topic u.nextChannel
          nextChannel := incUint16 u.nextChannel }, u.nextChannel, none) := by
    simp [UnifiedMcapWriter.CreateChannel, hfresh, hsid]
  refine ⟨_, _, hrun, ?_, ?_⟩
  · simp [channelRecordCount, List.filter_append]
  · simp [UnifiedMcapWriter.CreateChannel,
      assocLookup_upsert_self u.channels topic u.nextChannel]

/-- C6: for every topic with no existing binding, CreateChannel with a
schema name that has no bound schema id returns an error and mutates
nothing — the resulting writer is literally the input writer (no binding,
no record, counter not advanced) and the returned id is 0. -/
theorem C6_create_channel_unregistered_schema (u : UnifiedMcapWriter)
    (topic schemaName : String) (md : List (String × String)) (w : Bool)
    (hfresh : assocLookup u.channels topic = none)
    (hnone : assocLookup u.schemaIDs schemaName = none) :
    u.CreateChannel topic schemaName md w =
      (u, 0, some ("schema " ++ schemaName ++ " not registered")) := by
  simp [UnifiedMcapWriter.CreateChannel, hfresh, hnone]

/-- C7: WriteMessage performs no closed-state check — on a writer that is
already closed the call behaves exactly as on the same writer not closed
(same error component), and with a succeeding codec write it is passed on
to the codec: the message record is appended and nil error returned, never
a dedicated writer-closed error. -/
theorem C7_write_message_not_guarded_by_close (u : UnifiedMcapWriter)
    (channelID : Nat) (data : List Nat) (logTime publishTime : Nat) (w : Bool)
    (_hclosed : u.closed = true) :
    (u.WriteMessage channelID data logTime publishTime w).2 =
      (({ u with closed := false }).WriteMessage
        channelID data logTime publishTime w).2 ∧
    u.WriteMessage channelID data logTime publishTime true =
      ({ u with stream := u.stream ++
          [Record.message channelID 0 logTime publishTime data] }, none) := by
  constructor
  · cases w <;> simp [UnifiedMcapWriter.WriteMessage]
  · simp [UnifiedMcapWriter.WriteMessage]

/-- C8: the first Close on an open writer finalizes the codec stream and
closes the file handle exactly once, marks the writer closed (IsClosed
reports true), and every subsequent Close — whatever the codec/file fault
flags — returns nil error and performs no further codec or file close. -/
theorem C8_close_idempotent (u : UnifiedMcapWriter) (hopen : u.closed = false) :
    ∃ u1, u.Close true true = (u1, none) ∧
      u1.IsClosed = true ∧
      u1.codecCloseCalls = u.codecCloseCalls + 1 ∧
      u1.fileCloseCalls = u.fileCloseCalls + 1 ∧
      ∀ c f : Bool, u1.Close c f = (u1, none) := by
  have hrun : u.Close true true =
      ({ u with
          codecCloseCalls := u.codecCloseCalls + 1
          fileCloseCalls := u.fileCloseCalls + 1
          fileOpen := false
          closed := true }, none) := by
    simp [UnifiedMcapWriter.Close, hopen]
  exact ⟨_, hrun, rfl, rfl, rfl, fun c f => by simp [UnifiedMcapWriter.Close]⟩

/-- C10: when a schema name already has a bound id, AddCustomSchema with a
new definition overwrites the definition in the in-memory registry (last
write wins) and returns success, while the name keeps its original id and
the schema-id bindings, the counter and the container stream are all
unchanged — the stream still carries only what was written before. -/
theorem C10_add_custom_schema_rebind_registry_only (u : UnifiedMcapWriter)
    (name newDef : String) (w : Bool) (id : Nat)
    (hbound : assocLookup u.schemaIDs name = some id) :
    u.AddCustomSchema name newDef w =
      ({ u with registry := u.registry.Register name newDef }, none) ∧
    (u.AddCustomSchema name newDef w).1.registry.Get name = some newDef ∧
    (u.AddCustomSchema name newDef w).1.schemaIDs = u.schemaIDs ∧
    (u.AddCustomSchema name newDef w).1.nextSchemaID = u.nextSchemaID ∧
    (u.AddCustomSchema name newDef w).1.stream = u.stream ∧
    assocLookup (u.AddCustomSchema name newDef w).1.schemaIDs name = some id := by
  have hrun : u.AddCustomSchema name newDef w =
      ({ u with registry := u.registry.Register name newDef }, none) := by
    simp [UnifiedMcapWriter.AddCustomSchema, UnifiedMcapWriter.RegisterSchema,
      hbound]
  refine ⟨hrun, ?_, ?_, ?_, ?_, ?_⟩ <;> rw [hrun] <;>
    simp [SchemaRegistry.Register, SchemaRegistry.Get,
      assocLookup_upsert_self, hbound]

/-- C1 counterexample: after a successful open, only two of the three
built-in schema names are bound — `foxglove.Plot` has no schema id (so it
is not bound to any id in 1–3), refuting the claim that all three names
are bound immediately after open. -/
theorem C1_counterexample :
    NewUnifiedMcapWriter "svc" "out.mcap" true = .ok openedWriterSvc ∧
    assocLookup openedWriterSvc.schemaIDs "foxglove.Plot" = none ∧
    openedWriterSvc.schemaIDs =
      [("foxglove.Log", 1), ("mahcanirobotics.metric", 2)] :=
  ⟨newUnifiedMcapWriter_svc_eq, rfl, rfl⟩

/-- C1 (amended): opening the writer eagerly registers two of the built-in
schemas — the log record schema `foxglove.Log` (id 1) and the metric sample
schema `mahcanirobotics.metric` (id 2) — without any explicit RegisterSchema
call by the caller; the generic plot schema `foxglove.Plot` is seeded in the
embedded registry but left unbound. -/
theorem C1_open_binds_log_and_metric_schemas (svc path : String)
    (h : path ≠ "") :
    ∃ u, NewUnifiedMcapWriter svc path true = .ok u ∧
      assocLookup u.schemaIDs "foxglove.Log" = some 1 ∧
      assocLookup u.schemaIDs "mahcanirobotics.metric" = some 2 ∧
      assocLookup u.schemaIDs "foxglove.Plot" = none ∧
      u.registry.Get "foxglove.Log" = some foxgloveLogSchema ∧
      u.registry.Get "mahcanirobotics.metric" = some shokkiMetricSchema ∧
      u.registry.Get "foxglove.Plot" = some foxglovePlotSchema ∧
      u.nextSchemaID = 3 ∧
      u.schemaIDs.length = 2 := by
  have hrun : NewUnifiedMcapWriter svc path true = .ok
      { filePath := path
        closed := false
        registry := NewSchemaRegistry
        schemaIDs := [("foxglove.Log", 1), ("mahcanirobotics.metric", 2)]
        nextSchemaID := 3
        channels := []
        nextChannel := 1
        stream :=
          [ Record.header svc "github.com/machanirobotics/pulse/go/"
          , Record.schema 1 "foxglove.Log" "jsonschema" foxgloveLogSchema
          , Record.schema 2 "mahcanirobotics.metric" "jsonschema"
              shokkiMetricSchema ]
        fileOpen := true
        codecCloseCalls := 0
        fileCloseCalls := 0 } := by
    unfold NewUnifiedMcapWriter
    rw [if_neg h]
    rfl
  exact ⟨_, hrun, rfl, rfl, rfl, rfl, rfl, rfl, rfl, rfl⟩

/-- C1 witness: the amended open theorem applied at service name `svc` and
path `out.mcap`. -/
theorem C1_open_binds_log_and_metric_schemas_witness :
    ∃ u, NewUnifiedMcapWriter "svc" "out.mcap" true = .ok u ∧
      assocLookup u.schemaIDs "foxglove.Log" = some 1 ∧
      assocLookup u.schemaIDs "mahcanirobotics.metric" = some 2 ∧
      assocLookup u.schemaIDs "foxglove.Plot" = none ∧
      u.registry.Get "foxglove.Log" = some foxgloveLogSchema ∧
      u.registry.Get "mahcanirobotics.metric" = some shokkiMetricSchema ∧
      u.registry.Get "foxglove.Plot" = some foxglovePlotSchema ∧
      u.nextSchemaID = 3 ∧
      u.schemaIDs.length = 2 :=
  C1_open_binds_log_and_metric_schemas "svc" "out.mcap" (by decide)

/-- C3 counterexample: a mid-write I/O failure on a fresh RegisterSchema
(and likewise CreateChannel) leaves the writer literally unchanged — the
binding has NOT been committed before the physical write, refuting the
claim that the in-memory state is left ahead of the durable stream. -/
theorem C3_counterexample :
    openedWriterSvc.RegisterSchema "foxglove.Plot" false =
      (openedWriterSvc, some "failed to write schema foxglove.Plot") ∧
    assocLookup
      (openedWriterSvc.RegisterSchema "foxglove.Plot" false).1.schemaIDs
      "foxglove.Plot" = none ∧
    (openedWriterSvc.RegisterSchema "foxglove.Plot" false).1.nextSchemaID = 3 ∧
    openedWriterSvc.CreateChannel "/logs/svc" "foxglove.Log" [] false =
      (openedWriterSvc, 0, some "failed to create channel") :=
  ⟨rfl, rfl, rfl, rfl⟩

/-- C3 (amended): in RegisterSchema and CreateChannel the physical stream
write happens before the in-memory binding is recorded; a mid-write I/O
failure is propagated to the caller with the writer left exactly as it was
(no binding, no counter advance), so the in-memory state never runs ahead
of the durable stream. -/
theorem C3_write_precedes_binding (u : UnifiedMcapWriter)
    (name topic schemaName : String) (md : List (String × String))
    (h1 : assocLookup u.schemaIDs name = none)
    (h2 : (u.registry.Get name).isSome)
    (h3 : assocLookup u.channels topic = none)
    (h4 : (assocLookup u.schemaIDs schemaName).isSome) :
    u.RegisterSchema name false =
      (u, some ("failed to write schema " ++ name)) ∧
    u.CreateChannel topic schemaName md false =
      (u, 0, some "failed to create channel") := by
  obtain ⟨d, hd⟩ := Option.isSome_iff_exists.mp h2
  obtain ⟨sid, hsid⟩ := Option.isSome_iff_exists.mp h4
  constructor
  · simp [UnifiedMcapWriter.RegisterSchema, h1, hd]
  · simp [UnifiedMcapWriter.CreateChannel, h3, hsid]

/-- C3 witness: the amended failure-frame theorem applied at the freshly
opened writer, with the unbound registry schema `foxglove.Plot` and a fresh
topic over the bound schema `foxglove.Log`. -/
theorem C3_write_precedes_binding_witness :
    openedWriterSvc.RegisterSchema "foxglove.Plot" false =
      (openedWriterSvc, some ("failed to write schema " ++ "foxglove.Plot")) ∧
    openedWriterSvc.CreateChannel "/logs/svc" "foxglove.Log" [] false =
      (openedWriterSvc, 0, some "failed to create channel") :=
  C3_write_precedes_binding openedWriterSvc "foxglove.Plot" "/logs/svc"
    "foxglove.Log" [] (by decide) (by decide) (by decide) (by decide)

/-- C2 counterexample: in the end-to-end scenario on a freshly opened
writer, the first channel created (the log channel) receives channel id 1,
not 4, and the second (the metric channel) receives id 2, not 5 — channel
ids are allocated from their own counter, separate from schema ids. -/
theorem C2_counterexample :
    (openedWriterSvc.CreateLogChannel "/logs/svc" [] true).2.1 = 1 ∧
    ((openedWriterSvc.CreateLogChannel "/logs/svc" [] true).1.CreateMetricChannel
      "/metrics/svc/cpu/load" [] true).2.1 = 2 ∧
    (openedWriterSvc.CreateLogChannel "/logs/svc" [] true).2.1 ≠ 4 ∧
    ((openedWriterSvc.CreateLogChannel "/logs/svc" [] true).1.CreateMetricChannel
      "/metrics/svc/cpu/load" [] true).2.1 ≠ 5 :=
  ⟨rfl, rfl, by decide, by decide⟩

theorem idsGapFree_openedWriterSvc : idsGapFree openedWriterSvc := by
  unfold idsGapFree
  refine ⟨by decide, by decide, by decide, by decide⟩

/-- C2 (amended): schema ids and channel ids are drawn from two separate
counters, each starting at 1; within each id space, every successful fresh
registration/creation is assigned exactly the next counter value, the
counter advances by one, and the bound ids remain exactly 1, 2, 3, … in
call-commit order with no id reused and no id skipped (in the end-to-end
scenario the built-in schemas take schema ids 1 and 2, and the first and
second channels created take channel ids 1 and 2, not 4 and 5). -/
theorem C2_gap_free_ids_per_space (u : UnifiedMcapWriter)
    (hinv : idsGapFree u)
    (hs : u.nextSchemaID + 1 < 2 ^ 16) (hc : u.nextChannel + 1 < 2 ^ 16) :
    (∀ name, assocLookup u.schemaIDs name = none →
      (u.registry.Get name).isSome →
      ∃ u1, u.RegisterSchema name true = (u1, none) ∧
        assocLookup u1.schemaIDs name = some u.nextSchemaID ∧
        u1.nextSchemaID = u.nextSchemaID + 1 ∧
        u1.channels = u.channels ∧ u1.nextChannel = u.nextChannel ∧
        idsGapFree u1) ∧
    (∀ topic schemaName md, assocLookup u.channels topic = none →
      (assocLookup u.schemaIDs schemaName).isSome →
      ∃ u1, u.CreateChannel topic schemaName md true =
          (u1, u.nextChannel, none) ∧
        assocLookup u1.channels topic = some u.nextChannel ∧
        u1.nextChannel = u.nextChannel + 1 ∧
        u1.schemaIDs = u.schemaIDs ∧ u1.nextSchemaID = u.nextSchemaID ∧
        idsGapFree u1) := by
  obtain ⟨hs1, hc1, hsmap, hcmap⟩ := hinv
  constructor
  · intro name hfresh hreg
    obtain ⟨d, hd⟩ := Option.isSome_iff_exists.mp hreg
    have hrun : u.RegisterSchema name true =
        ({ u with
            stream := u.stream ++
              [Record.schema u.nextSchemaID name "jsonschema" d]
            schemaIDs := assocUpsert u.schemaIDs name u.nextSchemaID
            nextSchemaID := incUint16 u.nextSchemaID }, none) := by
      simp [UnifiedMcapWriter.RegisterSchema, hfresh, hd]
    have hinc : incUint16 u.nextSchemaID = u.nextSchemaID + 1 :=
      incUint16_eq_succ hs
    refine ⟨_, hrun, assocLookup_upsert_self _ _ _, hinc, rfl, rfl,
      ?_, ?_, ?_, ?_⟩
    · simp [hinc]
    · exact hc1
    · simp only [hinc, Nat.add_sub_cancel]
      rw [assocUpsert_map_snd_of_absent _ _ _ hfresh, hsmap]
      exact range'_one_concat hs1
    · exact hcmap
  · intro topic schemaName md hfresh hschema
    obtain ⟨sid, hsid⟩ := Option.isSome_iff_exists.mp hschema
    have hrun : u.CreateChannel topic schemaName md true =
        ({ u with
            stream := u.stream ++
              [Record.channel u.nextChannel sid topic "json" md]
            channels := assocUpsert u.channels topic u.nextChannel
            nextChannel := incUint16 u.nextChannel }, u.nextChannel, none) := by
      simp [UnifiedMcapWriter.CreateChannel, hfresh, hsid]
    have hinc : incUint16 u.nextChannel = u.nextChannel + 1 :=
      incUint16_eq_succ hc
    refine ⟨_, hrun, assocLookup_upsert_self _ _ _, hinc, rfl, rfl,
      ?_, ?_, ?_, ?_⟩
    · exact hs1
    · simp [hinc]
    · exact hsmap
    · simp only [hinc, Nat.add_sub_cancel]
      rw [assocUpsert_map_snd_of_absent _ _ _ hfresh, hcmap]
      exact range'_one_concat hc1

/-- C2 witness: the gap-free allocation theorem applied at the freshly
opened writer, instantiated with the registry schema `foxglove.Plot` (which
receives the next schema id, 3) and a fresh log topic (which receives the
next channel id, 1). -/
theorem C2_gap_free_ids_per_space_witness :
    (∃ u1, openedWriterSvc.RegisterSchema "foxglove.Plot" true = (u1, none) ∧
      assocLookup u1.schemaIDs "foxglove.Plot" =
        some openedWriterSvc.nextSchemaID ∧
      u1.nextSchemaID = openedWriterSvc.nextSchemaID + 1 ∧
      u1.channels = openedWriterSvc.channels ∧
      u1.nextChannel = openedWriterSvc.nextChannel ∧
      idsGapFree u1) ∧
    (∃ u1, openedWriterSvc.CreateChannel "/logs/svc" "foxglove.Log" [] true =
        (u1, openedWriterSvc.nextChannel, none) ∧
      assocLookup u1.channels "/logs/svc" =
        some openedWriterSvc.nextChannel ∧
      u1.nextChannel = openedWriterSvc.nextChannel + 1 ∧
      u1.schemaIDs = openedWriterSvc.schemaIDs ∧
      u1.nextSchemaID = openedWriterSvc.nextSchemaID ∧
      idsGapFree u1) := by
  have h := C2_gap_free_ids_per_space openedWriterSvc
    idsGapFree_openedWriterSvc (by decide) (by decide)
  exact ⟨h.1 "foxglove.Plot" (by decide) (by decide),
         h.2 "/logs/svc" "foxglove.Log" [] (by decide) (by decide)⟩

/-- C9: for every metric name with no cached channel, the metric adapter
derives the channel topic by prefixing `/metrics/{serviceName}/` to the
metric name with every `.` replaced by `/`, and creates the channel under
exactly that topic (binding it in the unified writer and appending one
channel record carrying it). -/
theorem C9_metric_topic_derivation (m : MetricMcapWriter) (metricName : String)
    (hfresh : assocLookup m.channels metricName = none)
    (htopic : assocLookup m.unifiedWriter.channels
      ("/metrics/" ++ m.serviceName ++ "/" ++
        replaceDotsWithSlashes metricName) = none)
    (hschema : (assocLookup m.unifiedWriter.schemaIDs
      "mahcanirobotics.metric").isSome) :
    ∃ m1 id, m.getOrCreateChannel metricName true = (m1, id, none) ∧
      assocLookup m1.unifiedWriter.channels
        ("/metrics/" ++ m.serviceName ++ "/" ++
          replaceDotsWithSlashes metricName) = some id ∧
      channelRecordCount
        ("/metrics/" ++ m.serviceName ++ "/" ++
          replaceDotsWithSlashes metricName) m1.unifiedWriter.stream =
      channelRecordCount
        ("/metrics/" ++ m.serviceName ++ "/" ++
          replaceDotsWithSlashes metricName) m.unifiedWriter.stream + 1 := by
  obtain ⟨sid, hsid⟩ := Option.isSome_iff_exists.mp hschema
  have hrun : m.getOrCreateChannel metricName true =
      ({ m with
          unifiedWriter := { m.unifiedWriter with
            stream := m.unifiedWriter.stream ++
              [Record.channel m.unifiedWriter.nextChannel sid
                ("/metrics/" ++ m.serviceName ++ "/" ++
                  replaceDotsWithSlashes metricName) "json"
                (assocUpsert m.metadata "metric_name" metricName)]
            channels := assocUpsert m.unifiedWriter.channels
              ("/metrics/" ++ m.serviceName ++ "/" ++
                replaceDotsWithSlashes metricName)
              m.unifiedWriter.nextChannel
            nextChannel := incUint16 m.unifiedWriter.nextChannel }
          channels := assocUpsert m.channels metricName
            m.unifiedWriter.nextChannel },
        m.unifiedWriter.nextChannel, none) := by
    simp [MetricMcapWriter.getOrCreateChannel,
      UnifiedMcapWriter.CreateMetricChannel, UnifiedMcapWriter.CreateChannel,
      hfresh, htopic, hsid]
  refine ⟨_, _, hrun, assocLookup_upsert_self _ _ _, ?_⟩
  simp [channelRecordCount, List.filter_append]

/-- C9 witness: the topic-derivation theorem applied at a fresh metric
adapter for service `svc` and metric name `llm.cache.hit_rate`; the derived
topic is the literal `/metrics/svc/llm/cache/hit_rate`. -/
theorem C9_metric_topic_derivation_witness :
    "/metrics/" ++ "svc" ++ "/" ++ replaceDotsWithSlashes "llm.cache.hit_rate"
      = "/metrics/svc/llm/cache/hit_rate" ∧
    ∃ m1 id,
      ({ unifiedWriter := openedWriterSvc, channels := [], serviceName := "svc",
         metadata := [] } : MetricMcapWriter).getOrCreateChannel
          "llm.cache.hit_rate" true = (m1, id, none) ∧
      assocLookup m1.unifiedWriter.channels
        "/metrics/svc/llm/cache/hit_rate" = some id ∧
      channelRecordCount "/metrics/svc/llm/cache/hit_rate"
        m1.unifiedWriter.stream =
      channelRecordCount "/metrics/svc/llm/cache/hit_rate"
        openedWriterSvc.stream + 1 :=
  ⟨rfl, C9_metric_topic_derivation
    { unifiedWriter := openedWriterSvc, channels := [], serviceName := "svc",
      metadata := [] } "llm.cache.hit_rate" (by decide) (by decide)
    (by decide)⟩

/-- C4 witness: channel-creation idempotence applied at the freshly opened
writer with topic `/logs/svc`, first over `foxglove.Log` with empty
metadata, then repeated over a different schema name and metadata with a
failing fault flag. -/
theorem C4_create_channel_idempotent_witness :
    ∃ u1 id, openedWriterSvc.CreateChannel "/logs/svc" "foxglove.Log" [] true
        = (u1, id, none) ∧
      channelRecordCount "/logs/svc" u1.stream =
        channelRecordCount "/logs/svc" openedWriterSvc.stream + 1 ∧
      u1.CreateChannel "/logs/svc" "mahcanirobotics.metric"
        [("k", "v")] false = (u1, id, none) :=
  C4_create_channel_idempotent openedWriterSvc "/logs/svc" "foxglove.Log"
    "mahcanirobotics.metric" [] [("k", "v")] false (by decide) (by decide)

/-- C5 witness: schema-registration idempotence applied at the freshly
opened writer with the seeded but unbound registry schema `foxglove.Plot`,
repeated with a failing fault flag. -/
theorem C5_register_schema_idempotent_witness :
    ∃ u1, openedWriterSvc.RegisterSchema "foxglove.Plot" true = (u1, none) ∧
      assocLookup u1.schemaIDs "foxglove.Plot" =
        some openedWriterSvc.nextSchemaID ∧
      schemaRecordCount "foxglove.Plot" u1.stream =
        schemaRecordCount "foxglove.Plot" openedWriterSvc.stream + 1 ∧
      u1.RegisterSchema "foxglove.Plot" false = (u1, none) :=
  C5_register_schema_idempotent openedWriterSvc "foxglove.Plot" false
    (by decide) (by decide)

/-- C6 witness: the unregistered-schema rejection applied at the freshly
opened writer with topic `t` and schema name `nonexistent-schema`. -/
theorem C6_create_channel_unregistered_schema_witness :
    openedWriterSvc.CreateChannel "t" "nonexistent-schema" [] true =
      (openedWriterSvc, 0,
        some ("schema " ++ "nonexistent-schema" ++ " not registered")) :=
  C6_create_channel_unregistered_schema openedWriterSvc "t"
    "nonexistent-schema" [] true (by decide) (by decide)

/-- C7 witness: the unguarded WriteMessage theorem applied at the closed
variant of the freshly opened writer. -/
theorem C7_write_message_not_guarded_by_close_witness :
    (({ openedWriterSvc with closed := true } :
        UnifiedMcapWriter).WriteMessage 1 [42] 7 7 false).2 =
      (({ { openedWriterSvc with closed := true } with closed := false } :
        UnifiedMcapWriter).WriteMessage 1 [42] 7 7 false).2 ∧
    ({ openedWriterSvc with closed := true } :
        UnifiedMcapWriter).WriteMessage 1 [42] 7 7 true =
      ({ { openedWriterSvc with closed := true } with
          stream := ({ openedWriterSvc with closed := true } :
            UnifiedMcapWriter).stream ++ [Record.message 1 0 7 7 [42]] },
        none) :=
  C7_write_message_not_guarded_by_close
    { openedWriterSvc with closed := true } 1 [42] 7 7 false (by decide)

/-- C8 witness: close idempotence applied at the freshly opened writer. -/
theorem C8_close_idempotent_witness :
    ∃ u1, openedWriterSvc.Close true true = (u1, none) ∧
      u1.IsClosed = true ∧
      u1.codecCloseCalls = openedWriterSvc.codecCloseCalls + 1 ∧
      u1.fileCloseCalls = openedWriterSvc.fileCloseCalls + 1 ∧
      ∀ c f : Bool, u1.Close c f = (u1, none) :=
  C8_close_idempotent openedWriterSvc (by decide)

/-- C10 witness: the registry-only overwrite applied at the freshly opened
writer for the already-bound name `foxglove.Log` (id 1) with a new
definition. -/
theorem C10_add_custom_schema_rebind_registry_only_witness :
    openedWriterSvc.AddCustomSchema "foxglove.Log" "new-definition" true =
      ({ openedWriterSvc with
          registry := openedWriterSvc.registry.Register "foxglove.Log"
            "new-definition" }, none) ∧
    (openedWriterSvc.AddCustomSchema "foxglove.Log"
      "new-definition" true).1.registry.Get "foxglove.Log" =
        some "new-definition" ∧
    (openedWriterSvc.AddCustomSchema "foxglove.Log"
      "new-definition" true).1.schemaIDs = openedWriterSvc.schemaIDs ∧
    (openedWriterSvc.AddCustomSchema "foxglove.Log"
      "new-definition" true).1.nextSchemaID = openedWriterSvc.nextSchemaID ∧
    (openedWriterSvc.AddCustomSchema "foxglove.Log"
      "new-definition" true).1.stream = openedWriterSvc.stream ∧
    assocLookup (openedWriterSvc.AddCustomSchema "foxglove.Log"
      "new-definition" true).1.schemaIDs "foxglove.Log" = some 1 :=
  C10_add_custom_schema_rebind_registry_only openedWriterSvc "foxglove.Log"
    "new-definition" true 1 (by decide)
